import Mathlib

/-!
Verification of the RouteTO spatial incident index and route-risk scoring
engine, shallowly embedded from the Python sources:

* `backend/services/spatial_index.py`     — incident weighting (`crime_weight`,
  `SEVERITY`), index construction.
* `backend/services/spatial_data_loader.py` — `query_radius`, `query_nearest`
  over the STRtree broad-phase.
* `backend/services/route_analysis.py`    — `score_route`,
  `linestring_from_lonlat`, `_categorize_risk`, `compare_routes`,
  `_get_recommendation`.

Modelling conventions:
* Python floats are modelled as exact rationals (`ℚ`); the only genuinely
  irrational quantity — polyline length, which needs a square root — is
  modelled over `ℝ`.
* Planar distances are carried as *squared* distances (`dist2`): for radii
  `r ≥ 0`, `dist ≤ r ↔ dist² ≤ r²` and sorting by distance equals sorting by
  squared distance, so every comparison the code makes is preserved exactly.
* The shapely STRtree broad-phase `tree.query(g)` returns the indices of all
  indexed points whose extent intersects the extent (axis-aligned bounding
  box) of `g`; it is modelled as the corresponding bounding-box filter.
* `pd.Timestamp.now()`, read inside `crime_weight`, is modelled by passing
  the ambient wall-clock value as an explicit extra argument `wallClockNow`;
  timestamps are rationals measured in days.
-/

namespace RouteTO

/-- Squared planar distance between two points, in (metres)². -/
def dist2 (p q : ℚ × ℚ) : ℚ :=
  (p.1 - q.1) ^ 2 + (p.2 - q.2) ^ 2

/-- `np.clip(x, lo, hi) = min(hi, max(lo, x))`, as used in `crime_weight`. -/
def clip (x lo hi : ℚ) : ℚ :=
  min hi (max lo x)

/-- The fixed severity table `SEVERITY` of `spatial_index.py` (a Python dict,
modelled as an association list in its source order). -/
def SEVERITY : List (String × ℚ) :=
  [("Assault", 1), ("Robbery", 9/10), ("Break and Enter", 7/10),
   ("Theft", 6/10), ("Auto Theft", 6/10)]

/-- `SEVERITY.get(crime_type, 0.5)`: table lookup with default `0.5` for
unknown categories. -/
def severity (crime_type : String) : ℚ :=
  (SEVERITY.lookup crime_type).getD (1/2)

/-- Recency factor `1 / (1 + age_days / 30)` for an age in whole days
(`Timedelta.days` is an integer). -/
def recency (ageDays : ℤ) : ℚ :=
  1 / (1 + (ageDays : ℚ) / 30)

/-- The body of `crime_weight` after the age in days has been computed:
`np.clip(0.4*severity + 0.6*recency, 0.2, 1.0)`. -/
def crime_weightAtAge (crime_type : String) (ageDays : ℤ) : ℚ :=
  clip (4/10 * severity crime_type + 6/10 * recency ageDays) (2/10) 1

/-- `crime_weight(crime_type, date)` from `spatial_index.py`.  The Python
function takes only `(crime_type, date)` and reads the wall clock itself via
`current_date = pd.Timestamp.now()`; that ambient clock value is made explicit
here as the extra argument `wallClockNow` (both timestamps in days, so that
`(current_date - date).days` is `⌊wallClockNow - date⌋`). -/
def crime_weight (crime_type : String) (date wallClockNow : ℚ) : ℚ :=
  crime_weightAtAge crime_type ⌊wallClockNow - date⌋

/-! ### Spatial queries (`spatial_data_loader.py`)

The index built by `load_index` holds the projected points `points` and the
parallel `weights` list; queries return `(row index, squared distance)` pairs,
mirroring the DataFrame rows with their `distance_meters` column. -/

/-- Ordering of query results: ascending by (squared) distance, i.e. the key
`pandas.sort_values('distance_meters')` / `distances.sort(key=...)` sorts by. -/
def distLE (a b : ℕ × ℚ) : Prop := a.2 ≤ b.2

instance : DecidableRel distLE := fun a b =>
  inferInstanceAs (Decidable (a.2 ≤ b.2))

instance : IsTotal (ℕ × ℚ) distLE := ⟨fun a b => le_total a.2 b.2⟩

instance : IsTrans (ℕ × ℚ) distLE := ⟨fun _ _ _ hab hbc => le_trans hab hbc⟩

/-- A row index paired with its squared distance to the query center `c`
(one row of the result table). -/
def pairDist (pts : List (ℚ × ℚ)) (c : ℚ × ℚ) (i : ℕ) : ℕ × ℚ :=
  (i, dist2 (pts.getD i (0, 0)) c)

/-- All rows of the index paired with their squared distance to `c`,
in row order. -/
def allPairs (pts : List (ℚ × ℚ)) (c : ℚ × ℚ) : List (ℕ × ℚ) :=
  (List.range pts.length).map (pairDist pts c)

/-- The rows whose planar distance to `c` is at most `r` (as squared
distances: `dist2 ≤ r²`), in row order. -/
def withinPairs (pts : List (ℚ × ℚ)) (c : ℚ × ℚ) (r : ℚ) : List (ℕ × ℚ) :=
  (allPairs pts c).filter (fun p => decide (p.2 ≤ r ^ 2))

/-- Stable sort of result rows ascending by distance (Python's `list.sort` and
the final ordering produced by `sort_values` — pandas does not fix the order
of ties, the model resolves them stably by row order). -/
def sortPairs (l : List (ℕ × ℚ)) : List (ℕ × ℚ) :=
  l.insertionSort distLE

/-- Broad-phase of `query_radius`: `tree.query(center.buffer(r))` returns the
indices of points whose extent intersects the buffer's extent, the box
`[cx - r, cx + r] × [cy - r, cy + r]`. -/
def bboxCandidates (pts : List (ℚ × ℚ)) (c : ℚ × ℚ) (r : ℚ) : List ℕ :=
  (List.range pts.length).filter (fun i =>
    decide (|(pts.getD i (0, 0)).1 - c.1| ≤ r ∧ |(pts.getD i (0, 0)).2 - c.2| ≤ r))

/-- `query_radius(lat, lng, radius_meters, limit)`: broad-phase via
`tree.query(center.buffer(r))`, exact distance computation per candidate,
filter `distance_meters <= radius_meters`, `sort_values('distance_meters')`,
`head(limit)`.  For `r ≤ 0`, `Point.buffer(r)` is an empty polygon, so the
broad-phase returns no candidates and the function short-circuits to the
empty result (`if not possible_matches_idx: return ...iloc[0:0]`). -/
def query_radius (pts : List (ℚ × ℚ)) (c : ℚ × ℚ) (r : ℚ) (limit : ℕ) :
    List (ℕ × ℚ) :=
  if r ≤ 0 then []
  else
    let withD := (bboxCandidates pts c r).map (pairDist pts c)
    let within := withD.filter (fun p => decide (p.2 ≤ r ^ 2))
    (sortPairs within).take limit

/-- `query_radius` with its Python default argument `limit=1000`. -/
def query_radius_default (pts : List (ℚ × ℚ)) (c : ℚ × ℚ) (r : ℚ) :
    List (ℕ × ℚ) :=
  query_radius pts c r 1000

/-- Broad-phase of `query_nearest`: `list(tree.nearest(center_point, ...))`.
Shapely's `STRtree.nearest` returns the (single) nearest item of the tree —
never the full distance-ranked index — so the candidate list holds at most
one index: the first row index minimising the distance to `c` (empty tree →
no candidates). -/
def strtreeNearest (pts : List (ℚ × ℚ)) (c : ℚ × ℚ) : List ℕ :=
  ((List.range pts.length).foldl (fun best i =>
    match best with
    | none => some i
    | some b =>
      if dist2 (pts.getD i (0, 0)) c < dist2 (pts.getD b (0, 0)) c then some i
      else some b) none).toList

/-- `query_nearest(lat, lng, count)`: takes the broad-phase candidates,
truncates them to the fixed window `count * 2`
(`limited_idx = nearest_idx[:count * 2]`), computes distances, sorts them
ascending (stable `list.sort`), and keeps the first `count`. -/
def query_nearest (pts : List (ℚ × ℚ)) (c : ℚ × ℚ) (count : ℕ) :
    List (ℕ × ℚ) :=
  let nearest_idx := strtreeNearest pts c
  if nearest_idx.isEmpty then []
  else
    let limited_idx := nearest_idx.take (count * 2)
    let dists := limited_idx.map (pairDist pts c)
    (sortPairs dists).take count

/-- What §4.3/§8 of the specification demand of the nearest query, written
from the spec's words: the `k` smallest-distance entries of an unbounded
radius query around `c` — i.e. the first `k` rows of all indexed points
sorted ascending by distance. -/
def nearestSpec (pts : List (ℚ × ℚ)) (c : ℚ × ℚ) (k : ℕ) : List (ℕ × ℚ) :=
  (sortPairs (allPairs pts c)).take k

/-! ### Route scoring (`route_analysis.py`) -/

/-- Consecutive vertex pairs of a polyline (its segments). -/
def segments (coords : List (ℚ × ℚ)) : List ((ℚ × ℚ) × (ℚ × ℚ)) :=
  coords.zip coords.tail

/-- Whether every segment of the polyline is degenerate, i.e. the planar
`line.length` is `0` (see `line_length_eq_zero_iff`). -/
def isZeroLength (coords : List (ℚ × ℚ)) : Bool :=
  (segments coords).all (fun ab => dist2 ab.1 ab.2 == 0)

/-- Sum of Euclidean segment lengths (in metres) of a segment list. -/
noncomputable def segSum (l : List ((ℚ × ℚ) × (ℚ × ℚ))) : ℝ :=
  l.foldr (fun ab acc => Real.sqrt ((dist2 ab.1 ab.2 : ℚ) : ℝ) + acc) 0

/-- `line.length`: the planar length of the polyline in metres. -/
noncomputable def line_length (coords : List (ℚ × ℚ)) : ℝ :=
  segSum (segments coords)

/-- Axis-aligned bounding box `(minX, minY, maxX, maxY)` of the polyline's
vertices. -/
def lineBBox (coords : List (ℚ × ℚ)) : ℚ × ℚ × ℚ × ℚ :=
  let xs := coords.map Prod.fst
  let ys := coords.map Prod.snd
  (xs.foldr min (xs.headD 0), ys.foldr min (ys.headD 0),
   xs.foldr max (xs.headD 0), ys.foldr max (ys.headD 0))

/-- Broad-phase of `score_route`: `tree.query(line.buffer(buffer_m))` keeps
points whose extent intersects the buffer's extent — the line's bounding box
expanded by `buffer_m` in each direction. -/
def inExpandedBBox (coords : List (ℚ × ℚ)) (buffer_m : ℚ) (p : ℚ × ℚ) : Bool :=
  let b := lineBBox coords
  decide (b.1 - buffer_m ≤ p.1 ∧ p.1 ≤ b.2.2.1 + buffer_m ∧
          b.2.1 - buffer_m ≤ p.2 ∧ p.2 ≤ b.2.2.2 + buffer_m)

/-- Squared distance from a point `p` to the segment `a–b` (projection of `p`
onto the segment, clamped to its endpoints). -/
def segDist2 (a b p : ℚ × ℚ) : ℚ :=
  let d2 := dist2 a b
  if d2 = 0 then dist2 a p
  else
    let t := ((p.1 - a.1) * (b.1 - a.1) + (p.2 - a.2) * (b.2 - a.2)) / d2
    let tc := min 1 (max 0 t)
    dist2 (a.1 + tc * (b.1 - a.1), a.2 + tc * (b.2 - a.2)) p

/-- Narrow-phase of `score_route`: `route_buffer.contains(point)`.  The
buffered corridor is the set of points within `buffer_m` of the polyline;
`contains` asks for its interior, i.e. strict distance `< buffer_m`,
equivalently squared distance to some segment `< buffer_m²`. -/
def withinBuffer (coords : List (ℚ × ℚ)) (p : ℚ × ℚ) (buffer_m : ℚ) : Bool :=
  (segments coords).any (fun ab => segDist2 ab.1 ab.2 p < buffer_m ^ 2)

/-- The rows that survive both phases of `score_route`'s incident scan, in
row order (`for idx in candidate_indices: if idx < len(points) and
route_buffer.contains(points[idx])`). -/
def routeHits (coords : List (ℚ × ℚ)) (pts : List (ℚ × ℚ)) (buffer_m : ℚ) :
    List ℕ :=
  ((List.range pts.length).filter
    (fun i => inExpandedBBox coords buffer_m (pts.getD i (0, 0)))).filter
    (fun i => withinBuffer coords (pts.getD i (0, 0)) buffer_m)

/-- `total_weight`: sum of the weights of the rows inside the corridor. -/
def routeTotalWeight (coords : List (ℚ × ℚ)) (pts : List (ℚ × ℚ))
    (ws : List ℚ) (buffer_m : ℚ) : ℚ :=
  ((routeHits coords pts buffer_m).map (fun i => ws.getD i 0)).sum

/-- The dictionary returned by `score_route`.  In the zero-length branch the
Python code returns `{'score': 0.0, 'incidents': 0, 'length_km': 0.0}` —
*without* the `'total_weight'` key — so that field is an `Option`, `none`
meaning the key is absent from the returned dict. -/
structure ScoreResult where
  score : ℝ
  incidents : ℕ
  length_km : ℝ
  total_weight : Option ℚ

/-- `score_route(line, tree, points, weights, buffer_m)` from
`route_analysis.py` (the buffer default is `buffer_m=180.0`).  Branches on
`length_km == 0` (equivalently `isZeroLength`, see `line_length_eq_zero_iff`)
and otherwise mirrors `risk_score = total_weight / length_km if
length_km > 0 else 0.0`. -/
noncomputable def score_route (coords : List (ℚ × ℚ)) (pts : List (ℚ × ℚ))
    (ws : List ℚ) (buffer_m : ℚ) : ScoreResult :=
  if isZeroLength coords = true then
    { score := 0, incidents := 0, length_km := 0, total_weight := none }
  else
    let lenKm : ℝ := line_length coords / 1000
    let tw : ℚ := routeTotalWeight coords pts ws buffer_m
    { score := if 0 < lenKm then (tw : ℝ) / lenKm else 0
      incidents := (routeHits coords pts buffer_m).length
      length_km := lenKm
      total_weight := some tw }

/-- `linestring_from_lonlat(coords, to_utm)`: raises
`ValueError("LineString requires at least 2 coordinates")` for fewer than two
vertices, else projects each vertex.  The raise is modelled as `Except.error`
carrying the exception message. -/
def linestring_from_lonlat (to_utm : ℚ × ℚ → ℚ × ℚ) (coords : List (ℚ × ℚ)) :
    Except String (List (ℚ × ℚ)) :=
  if coords.length < 2 then
    Except.error "LineString requires at least 2 coordinates"
  else
    Except.ok (coords.map to_utm)

/-- `_categorize_risk(score)` from `route_analysis.py`. -/
def categorize_risk (score : ℚ) : String :=
  if score < 1 then "low"
  else if score < 3 then "medium"
  else if score < 6 then "high"
  else "very_high"

/-! ### Route comparison (`route_analysis.py`) -/

/-- The fields of an analyzed route that `compare_routes` and
`_get_recommendation` read: `r['route_id']`, `r['analysis']['score']`,
`r['analysis']['length_km']`, `r['osrm_data']['duration_seconds']`. -/
structure RouteInfo where
  route_id : ℕ
  score : ℚ
  length_km : ℚ
  duration_seconds : ℚ
deriving Repr, DecidableEq

/-- Python's `min(r :: rest, key=f)`: the first element attaining the
minimum key. -/
def minBy (f : RouteInfo → ℚ) (r : RouteInfo) (rest : List RouteInfo) :
    RouteInfo :=
  rest.foldl (fun best x => if f x < f best then x else best) r

/-- Minimum of a nonempty list of rationals (`min(xs)`). -/
def listMin (x : ℚ) (xs : List ℚ) : ℚ := xs.foldl min x

/-- Maximum of a nonempty list of rationals (`max(xs)`). -/
def listMax (x : ℚ) (xs : List ℚ) : ℚ := xs.foldl max x

/-- Average of a nonempty list of rationals (`sum(xs) / len(xs)`). -/
def listAvg (x : ℚ) (xs : List ℚ) : ℚ :=
  (x :: xs).sum / ((x :: xs).length : ℚ)

/-- `_get_recommendation(safest, fastest, shortest)` — `shortest` is accepted
but unused, exactly as in the source.  The guard chain is evaluated in source
order; messages are the exact f-string renderings. -/
def get_recommendation (safest fastest shortest : RouteInfo) : String :=
  let _ := shortest
  let time_penalty :=
    (safest.duration_seconds - fastest.duration_seconds) /
      fastest.duration_seconds
  if time_penalty < 2/10 then
    "Take route " ++ toString safest.route_id ++
      " - safest option with minimal time penalty"
  else if safest.score < 2 then
    "Take route " ++ toString safest.route_id ++
      " - low risk, worth the extra time"
  else if safest.score > 5 then
    "Consider route " ++ toString fastest.route_id ++
      " if time is critical, but be aware of higher crime risk"
  else
    "Route " ++ toString safest.route_id ++
      " recommended for safety, route " ++ toString fastest.route_id ++
      " for speed"

/-- The comparison summary dictionary built by `compare_routes` on a
nonempty route list. -/
structure Comparison where
  total_routes : ℕ
  safest_route_id : ℕ
  fastest_route_id : ℕ
  shortest_route_id : ℕ
  risk_min : ℚ
  risk_max : ℚ
  risk_avg : ℚ
  duration_min : ℚ
  duration_max : ℚ
  duration_avg : ℚ
  recommendation : String
deriving Repr, DecidableEq

/-- Result of `compare_routes`: either the distinguished
`{'error': 'No routes to compare'}` dictionary or the full comparison
summary; the caller branches on which shape it received. -/
inductive CompareResult where
  | err (msg : String)
  | ok (c : Comparison)
deriving Repr, DecidableEq

/-- `compare_routes(routes)` from `route_analysis.py`. -/
def compare_routes (routes : List RouteInfo) : CompareResult :=
  match routes with
  | [] => CompareResult.err "No routes to compare"
  | r :: rest =>
    let safest := minBy (fun x => x.score) r rest
    let fastest := minBy (fun x => x.duration_seconds) r rest
    let shortest := minBy (fun x => x.length_km) r rest
    CompareResult.ok
      { total_routes := (r :: rest).length
        safest_route_id := safest.route_id
        fastest_route_id := fastest.route_id
        shortest_route_id := shortest.route_id
        risk_min := listMin r.score (rest.map (fun x => x.score))
        risk_max := listMax r.score (rest.map (fun x => x.score))
        risk_avg := listAvg r.score (rest.map (fun x => x.score))
        duration_min :=
          listMin r.duration_seconds (rest.map (fun x => x.duration_seconds))
        duration_max :=
          listMax r.duration_seconds (rest.map (fun x => x.duration_seconds))
        duration_avg :=
          listAvg r.duration_seconds (rest.map (fun x => x.duration_seconds))
        recommendation := get_recommendation safest fastest shortest }

/-! ### Concrete inputs of the specification's worked scenarios (§8) -/

/-- A straight 1 km route in planar metres: §8's scenario polyline. -/
def scenarioRoute : List (ℚ × ℚ) := [(0, 0), (1000, 0)]

/-- Three incidents at one location on the scenario route. -/
def scenarioPts : List (ℚ × ℚ) := [(500, 0), (500, 0), (500, 0)]

/-- The scenario incident weights `0.5, 0.5, 1.0`. -/
def scenarioWs : List ℚ := [1/2, 1/2, 1]

/-- Comparison scenario: the route with score 0.5 and duration 600 s. -/
def routeA : RouteInfo :=
  { route_id := 0, score := 1/2, length_km := 1, duration_seconds := 600 }

/-- Comparison scenario: the route with score 2.5 and duration 650 s. -/
def routeB : RouteInfo :=
  { route_id := 1, score := 5/2, length_km := 1, duration_seconds := 650 }

/-- Comparison scenario: the route with score 6.0 and duration 500 s. -/
def routeC : RouteInfo :=
  { route_id := 2, score := 6, length_km := 1, duration_seconds := 500 }

/-! ## Theorems -/

/-- C2: the incident weight function is claimed to be a pure function of
`(category, occurrence time, explicitly passed now)` that never reads the
wall clock.  The source `crime_weight(crime_type, date)` has *no* `now`
parameter and reads `pd.Timestamp.now()` internally (modelled as the
`wallClockNow` argument): two calls with identical explicit arguments
`("Assault", date = day 0)` return `1.0` when the clock reads day 0 but
`0.6` when it reads day 60 — the output depends on hidden wall-clock state,
refuting the claim. -/
theorem C2_weight_reads_wall_clock :
    crime_weight "Assault" 0 0 = 1 ∧ crime_weight "Assault" 0 60 = 3/5 ∧
    crime_weight "Assault" 0 0 ≠ crime_weight "Assault" 0 60 := by
  have hs : severity "Assault" = 1 := rfl
  have e1 : crime_weight "Assault" 0 0 = 1 := by
    norm_num [crime_weight, crime_weightAtAge, clip, recency, hs]
  have e2 : crime_weight "Assault" 0 60 = 3/5 := by
    norm_num [crime_weight, crime_weightAtAge, clip, recency, hs]
  refine ⟨e1, e2, ?_⟩
  rw [e1, e2]
  norm_num

/-- C6: for every category and every age ≥ 0 days, the weight equals
`clamp(0.4·severity + 0.6·recency, 0.2, 1.0)` with
`recency = 1/(1 + age_days/30)`, the severity table is
Assault 1.0, Robbery 0.9, Break and Enter 0.7, Theft 0.6, Auto Theft 0.6
with default 0.5 for unlisted categories, and the result lies in
[0.2, 1.0]. -/
theorem C6_weight_formula_and_range :
    (∀ (ct : String) (age : ℤ), 0 ≤ age →
      crime_weightAtAge ct age
        = min 1 (max (2/10)
            (4/10 * severity ct + 6/10 * (1 / (1 + (age : ℚ) / 30))))
      ∧ 2/10 ≤ crime_weightAtAge ct age ∧ crime_weightAtAge ct age ≤ 1)
    ∧ severity "Assault" = 1 ∧ severity "Robbery" = 9/10
    ∧ severity "Break and Enter" = 7/10 ∧ severity "Theft" = 6/10
    ∧ severity "Auto Theft" = 6/10
    ∧ (∀ ct : String, ct ≠ "Assault" → ct ≠ "Robbery" →
        ct ≠ "Break and Enter" → ct ≠ "Theft" → ct ≠ "Auto Theft" →
        severity ct = 1/2) := by
  refine ⟨fun ct age _ => ⟨rfl, ?_, ?_⟩, rfl, rfl, rfl, rfl, rfl,
    fun ct h1 h2 h3 h4 h5 => ?_⟩
  · exact le_min (by norm_num) (le_max_left _ _)
  · exact min_le_left _ _
  · simp [severity, SEVERITY, List.lookup, beq_eq_false_iff_ne.mpr h1,
      beq_eq_false_iff_ne.mpr h2, beq_eq_false_iff_ne.mpr h3,
      beq_eq_false_iff_ne.mpr h4, beq_eq_false_iff_ne.mpr h5]

/-- Witness for C6 at the concrete input `("Theft", age 0)`. -/
theorem C6_witness :
    crime_weightAtAge "Theft" 0
      = min 1 (max (2/10)
          (4/10 * severity "Theft" + 6/10 * (1 / (1 + ((0 : ℤ) : ℚ) / 30))))
    ∧ 2/10 ≤ crime_weightAtAge "Theft" 0 ∧ crime_weightAtAge "Theft" 0 ≤ 1 :=
  C6_weight_formula_and_range.1 "Theft" 0 (by decide)

/-- C9: for a fixed category, the weight is non-increasing in the incident's
age in days: `a1 ≤ a2` (both ≥ 0) implies
`weight at age a2 ≤ weight at age a1`. -/
theorem C9_weight_antitone_in_age :
    ∀ (ct : String) (a1 a2 : ℤ), 0 ≤ a1 → 0 ≤ a2 → a1 ≤ a2 →
      crime_weightAtAge ct a2 ≤ crime_weightAtAge ct a1 := by
  intro ct a1 a2 h1 _ h12
  have ha1 : (0 : ℚ) ≤ (a1 : ℚ) := by exact_mod_cast h1
  have ha12 : (a1 : ℚ) ≤ (a2 : ℚ) := by exact_mod_cast h12
  have hrec : recency a2 ≤ recency a1 := by
    unfold recency
    exact one_div_le_one_div_of_le (by linarith) (by linarith)
  have hraw : 4/10 * severity ct + 6/10 * recency a2
      ≤ 4/10 * severity ct + 6/10 * recency a1 := by
    have h6 : (0 : ℚ) ≤ 6/10 := by norm_num
    nlinarith [mul_le_mul_of_nonneg_left hrec h6]
  exact min_le_min le_rfl (max_le_max le_rfl hraw)

/-- Witness for C9 at the concrete input `("Theft", ages 0 ≤ 30)`. -/
theorem C9_witness :
    crime_weightAtAge "Theft" 30 ≤ crime_weightAtAge "Theft" 0 :=
  C9_weight_antitone_in_age "Theft" 0 30 (by decide) (by decide) (by decide)

/-! ### Radius query lemmas -/

theorem abs_le_radius {a r : ℚ} (hr : 0 ≤ r) (h : a ^ 2 ≤ r ^ 2) : |a| ≤ r :=
  abs_le.mpr (abs_le_of_sq_le_sq' h hr)

/-- Dropping a pre-filter `B` does not change a filtered map when the final
filter `Q` only keeps images of elements that pass `B`. -/
theorem filter_map_filter_of_imp {α : Type} (f : ℕ → α) (B : ℕ → Bool)
    (Q : α → Bool) :
    ∀ l : List ℕ, (∀ i ∈ l, Q (f i) = true → B i = true) →
      ((l.filter B).map f).filter Q = (l.map f).filter Q := by
  intro l
  induction l with
  | nil => intro _; rfl
  | cons i t ih =>
    intro h
    have ht := ih (fun j hj => h j (List.mem_cons_of_mem _ hj))
    cases hB : B i with
    | true => simp only [List.filter_cons, hB, List.map_cons, if_true, ht]
    | false =>
      have hQ : Q (f i) = false := by
        cases hq : Q (f i) with
        | false => rfl
        | true => exact absurd (h i (List.mem_cons_self i t) hq) (by simp [hB])
      simp only [List.filter_cons, hB, List.map_cons, if_false,
        Bool.false_eq_true, hQ, ht]

/-- The bounding-box broad-phase of `query_radius` loses no point of the
disk: for `0 < r` the narrowed candidate rows are exactly the within-radius
rows. -/
theorem queryRadius_eq_of_pos (pts : List (ℚ × ℚ)) (c : ℚ × ℚ) (r : ℚ)
    (limit : ℕ) (hr : 0 < r) :
    query_radius pts c r limit = (sortPairs (withinPairs pts c r)).take limit := by
  have key : ((bboxCandidates pts c r).map (pairDist pts c)).filter
      (fun p => decide (p.2 ≤ r ^ 2)) = withinPairs pts c r := by
    unfold withinPairs allPairs bboxCandidates
    apply filter_map_filter_of_imp
    intro i _ hQ
    have hd : dist2 (pts.getD i (0, 0)) c ≤ r ^ 2 := by
      have := of_decide_eq_true hQ
      simpa [pairDist] using this
    have hx : ((pts.getD i (0, 0)).1 - c.1) ^ 2 ≤ r ^ 2 := by
      have h2 := sq_nonneg ((pts.getD i (0, 0)).2 - c.2)
      unfold dist2 at hd
      nlinarith
    have hy : ((pts.getD i (0, 0)).2 - c.2) ^ 2 ≤ r ^ 2 := by
      have h1 := sq_nonneg ((pts.getD i (0, 0)).1 - c.1)
      unfold dist2 at hd
      nlinarith
    exact decide_eq_true ⟨abs_le_radius hr.le hx, abs_le_radius hr.le hy⟩
  unfold query_radius
  rw [if_neg (not_le.mpr hr)]
  show (sortPairs (((bboxCandidates pts c r).map (pairDist pts c)).filter
      (fun p => decide (p.2 ≤ r ^ 2)))).take limit = _
  rw [key]

/-- Every `query_radius` result list is sorted ascending by distance. -/
theorem queryRadius_sorted (pts : List (ℚ × ℚ)) (c : ℚ × ℚ) (r : ℚ)
    (limit : ℕ) : List.Sorted distLE (query_radius pts c r limit) := by
  unfold query_radius
  split
  · exact List.sorted_nil
  · exact List.Pairwise.sublist (List.take_sublist _ _)
      (List.sorted_insertionSort distLE _)

theorem withinPairs_nodup (pts : List (ℚ × ℚ)) (c : ℚ × ℚ) (r : ℚ) :
    (withinPairs pts c r).Nodup := by
  unfold withinPairs allPairs
  refine List.Nodup.filter _ (List.Nodup.map ?_ (List.nodup_range _))
  intro a b hab
  exact congrArg Prod.fst hab

theorem sortPairs_nodup {l : List (ℕ × ℚ)} (h : l.Nodup) :
    (sortPairs l).Nodup :=
  (List.perm_insertionSort distLE l).nodup_iff.mpr h

/-- C4 (amended): for every positive radius the query equals the
distance-sorted list of exactly the within-radius rows, truncated to the
`limit` nearest, and is sorted ascending by distance; for `r ≤ 0` the empty
buffer makes the result empty. -/
theorem C4_radius_query_amended (pts : List (ℚ × ℚ)) (c : ℚ × ℚ) (r : ℚ)
    (limit : ℕ) :
    (0 < r →
      query_radius pts c r limit
        = (sortPairs (withinPairs pts c r)).take limit ∧
      List.Sorted distLE (query_radius pts c r limit)) ∧
    (r ≤ 0 → query_radius pts c r limit = []) := by
  refine ⟨fun hr => ⟨queryRadius_eq_of_pos pts c r limit hr,
    queryRadius_sorted pts c r limit⟩, fun hr => ?_⟩
  unfold query_radius
  rw [if_pos hr]

/-- C4 counterexample to the claim as stated: the index holds one point at
the center itself, whose planar distance `0` is `≤ r = 0`, yet
`query_radius` (at its default `limit=1000`) returns no rows — shapely's
`Point.buffer(0)` is an empty polygon, so the broad-phase short-circuits. -/
theorem C4_counterexample :
    query_radius_default [((0 : ℚ), 0)] (0, 0) 0 = [] ∧
    dist2 ((0 : ℚ), 0) ((0 : ℚ), 0) ≤ 0 ^ 2 := by
  constructor
  · unfold query_radius_default query_radius
    rw [if_pos le_rfl]
  · norm_num [dist2]

/-- Witness for C4 at a concrete two-point index, radius 5 and the default
limit (plus the `r ≤ 0` branch at radius −1). -/
theorem C4_witness :
    (query_radius [((0 : ℚ), 0), (3, 0)] (0, 0) 5 1000
        = (sortPairs (withinPairs [((0 : ℚ), 0), (3, 0)] (0, 0) 5)).take 1000 ∧
      List.Sorted distLE (query_radius [((0 : ℚ), 0), (3, 0)] (0, 0) 5 1000)) ∧
    query_radius [((0 : ℚ), 0), (3, 0)] (0, 0) (-1) 1000 = [] :=
  ⟨(C4_radius_query_amended [((0 : ℚ), 0), (3, 0)] (0, 0) 5 1000).1
      (by norm_num),
   (C4_radius_query_amended [((0 : ℚ), 0), (3, 0)] (0, 0) (-1) 1000).2
      (by norm_num)⟩

/-- C10: `query_radius` takes a `limit` parameter (default 1000) and returns
at most `limit` rows; for a positive radius the result length is
`min limit (#within-radius rows)`, and when more than `limit` rows lie within
the radius some within-radius row is silently missing from the result. -/
theorem C10_radius_limit_truncation (pts : List (ℚ × ℚ)) (c : ℚ × ℚ) (r : ℚ)
    (limit : ℕ) :
    query_radius_default pts c r = query_radius pts c r 1000 ∧
    (query_radius pts c r limit).length ≤ limit ∧
    (0 < r →
      (query_radius pts c r limit).length
        = min limit (withinPairs pts c r).length ∧
      (limit < (withinPairs pts c r).length →
        ∃ e, e ∈ sortPairs (withinPairs pts c r) ∧
          e ∉ query_radius pts c r limit)) := by
  refine ⟨rfl, ?_, fun hr => ⟨?_, fun hlt => ?_⟩⟩
  · unfold query_radius
    split
    · simp
    · rw [List.length_take]
      exact min_le_left _ _
  · rw [queryRadius_eq_of_pos pts c r limit hr, List.length_take]
    unfold sortPairs
    rw [List.length_insertionSort]
  · have hlen : (sortPairs (withinPairs pts c r)).length
        = (withinPairs pts c r).length := by
      unfold sortPairs
      exact List.length_insertionSort _ _
    have hlim : limit < (sortPairs (withinPairs pts c r)).length := by
      rw [hlen]; exact hlt
    refine ⟨(sortPairs (withinPairs pts c r)).get ⟨limit, hlim⟩,
      List.get_mem _ _ _, ?_⟩
    rw [queryRadius_eq_of_pos pts c r limit hr]
    have hnd : (sortPairs (withinPairs pts c r)).Nodup :=
      sortPairs_nodup (withinPairs_nodup pts c r)
    intro hmem
    rw [← List.take_append_drop limit (sortPairs (withinPairs pts c r))]
      at hnd
    obtain ⟨-, -, hdisj⟩ := List.nodup_append.mp hnd
    have hdrop : (sortPairs (withinPairs pts c r)).get ⟨limit, hlim⟩
        ∈ (sortPairs (withinPairs pts c r)).drop limit := by
      rw [List.drop_eq_getElem_cons hlim]
      exact (List.get_eq_getElem _ _) ▸ List.mem_cons_self _ _
    exact hdisj hmem hdrop

/-! ### Polyline length lemmas -/

theorem dist2_nonneg (p q : ℚ × ℚ) : 0 ≤ dist2 p q :=
  add_nonneg (sq_nonneg _) (sq_nonneg _)

theorem segSum_nonneg : ∀ l : List ((ℚ × ℚ) × (ℚ × ℚ)), 0 ≤ segSum l
  | [] => le_refl 0
  | _ :: t => add_nonneg (Real.sqrt_nonneg _) (segSum_nonneg t)

theorem segSum_pos : ∀ {l : List ((ℚ × ℚ) × (ℚ × ℚ))} {ab : (ℚ × ℚ) × (ℚ × ℚ)},
    ab ∈ l → dist2 ab.1 ab.2 ≠ 0 → 0 < segSum l := by
  intro l
  induction l with
  | nil => intro ab h; exact absurd h (List.not_mem_nil ab)
  | cons b t ih =>
    intro ab h hne
    rcases List.mem_cons.mp h with he | hm
    · subst he
      refine add_pos_of_pos_of_nonneg (Real.sqrt_pos.mpr ?_) (segSum_nonneg t)
      exact_mod_cast lt_of_le_of_ne (dist2_nonneg ab.1 ab.2) (Ne.symm hne)
    · exact add_pos_of_nonneg_of_pos (Real.sqrt_nonneg _) (ih hm hne)

theorem line_length_pos {coords : List (ℚ × ℚ)}
    (h : isZeroLength coords = false) : 0 < line_length coords := by
  obtain ⟨ab, hmem, hne⟩ := List.all_eq_false.mp h
  have hne' : dist2 ab.1 ab.2 ≠ 0 := fun he => hne (beq_iff_eq.mpr he)
  exact segSum_pos hmem hne'

theorem segSum_eq_zero : ∀ l : List ((ℚ × ℚ) × (ℚ × ℚ)),
    (∀ ab ∈ l, dist2 ab.1 ab.2 = 0) → segSum l = 0 := by
  intro l
  induction l with
  | nil => intro _; rfl
  | cons b t ih =>
    intro h
    have hb : ((dist2 b.1 b.2 : ℚ) : ℝ) = 0 := by
      exact_mod_cast h b (List.mem_cons_self b t)
    show Real.sqrt _ + segSum t = 0
    rw [hb, Real.sqrt_zero, ih (fun ab hab => h ab (List.mem_cons_of_mem _ hab)),
      add_zero]

/-- The zero-length test the model branches on agrees with `line.length == 0`,
the condition the Python code branches on. -/
theorem line_length_eq_zero_iff (coords : List (ℚ × ℚ)) :
    line_length coords = 0 ↔ isZeroLength coords = true := by
  cases h : isZeroLength coords with
  | false =>
    simp only [Bool.false_eq_true, iff_false]
    exact (line_length_pos h).ne'
  | true =>
    simp only [iff_true]
    refine segSum_eq_zero _ (fun ab hab => ?_)
    have := List.all_eq_true.mp h ab hab
    exact beq_iff_eq.mp this

/-! ### Evaluation of the §8 route-scoring scenario -/

theorem scenario_not_zero : isZeroLength scenarioRoute = false := by
  rw [isZeroLength,
    show segments scenarioRoute = [(((0 : ℚ), 0), ((1000 : ℚ), 0))] from rfl,
    List.all_cons, List.all_nil,
    show dist2 ((0 : ℚ), 0) ((1000 : ℚ), 0) = 1000000 from by norm_num [dist2]]
  simp

theorem scenario_length : line_length scenarioRoute = 1000 := by
  rw [line_length,
    show segments scenarioRoute = [(((0 : ℚ), 0), ((1000 : ℚ), 0))] from rfl]
  rw [segSum, List.foldr_cons, List.foldr_nil,
    show dist2 ((0 : ℚ), 0) ((1000 : ℚ), 0) = 1000000 from by norm_num [dist2]]
  rw [show (((1000000 : ℚ) : ℝ)) = 1000 ^ 2 from by norm_num]
  rw [Real.sqrt_sq (by norm_num : (0 : ℝ) ≤ 1000)]
  norm_num

theorem scenario_bbox : lineBBox scenarioRoute = (0, 0, 1000, 0) := by
  norm_num [lineBBox, scenarioRoute]

theorem scenario_broad_phase :
    inExpandedBBox scenarioRoute 180 ((500 : ℚ), 0) = true := by
  norm_num [inExpandedBBox, scenario_bbox]

theorem scenario_narrow_phase :
    withinBuffer scenarioRoute ((500 : ℚ), 0) 180 = true := by
  norm_num [withinBuffer, segDist2, dist2,
    show segments scenarioRoute = [(((0 : ℚ), 0), ((1000 : ℚ), 0))] from rfl]

theorem scenario_hits : routeHits scenarioRoute scenarioPts 180 = [0, 1, 2] := by
  rw [routeHits, show scenarioPts.length = 3 from rfl,
    show List.range 3 = [0, 1, 2] from rfl]
  simp only [List.filter_cons, List.filter_nil,
    show scenarioPts.getD 0 (0, 0) = ((500 : ℚ), 0) from rfl,
    show scenarioPts.getD 1 (0, 0) = ((500 : ℚ), 0) from rfl,
    show scenarioPts.getD 2 (0, 0) = ((500 : ℚ), 0) from rfl,
    scenario_broad_phase, scenario_narrow_phase, if_true]

theorem scenario_total_weight :
    routeTotalWeight scenarioRoute scenarioPts scenarioWs 180 = 2 := by
  rw [routeTotalWeight, scenario_hits]
  norm_num [scenarioWs, List.getD]

theorem score_route_scenario :
    score_route scenarioRoute scenarioPts scenarioWs 180
      = { score := 2, incidents := 3, length_km := 1, total_weight := some 2 } := by
  rw [score_route, if_neg (by simp [scenario_not_zero])]
  simp only [scenario_length, scenario_total_weight, scenario_hits]
  norm_num [ScoreResult.mk.injEq]

/-- C5: the §8 scenario — three incidents of weights 0.5, 0.5, 1.0 on a
straight 1 km route with a 180 m buffer — scores
`{score 2.0, incidents 3, length_km 1.0, total_weight 2.0}` with risk band
"medium"; in general the score is `total_weight / length_km`, and
`_categorize_risk` maps `< 1` to low, `[1, 3)` to medium, `[3, 6)` to high
and `≥ 6` to very_high. -/
theorem C5_scenario_and_score_semantics :
    score_route scenarioRoute scenarioPts scenarioWs 180
      = { score := 2, incidents := 3, length_km := 1, total_weight := some 2 }
    ∧ categorize_risk 2 = "medium"
    ∧ (∀ (coords pts : List (ℚ × ℚ)) (ws : List ℚ) (buffer_m : ℚ) (w : ℚ),
        (score_route coords pts ws buffer_m).total_weight = some w →
        (score_route coords pts ws buffer_m).score
          = (w : ℝ) / (score_route coords pts ws buffer_m).length_km)
    ∧ (∀ q : ℚ, (q < 1 → categorize_risk q = "low")
        ∧ (1 ≤ q → q < 3 → categorize_risk q = "medium")
        ∧ (3 ≤ q → q < 6 → categorize_risk q = "high")
        ∧ (6 ≤ q → categorize_risk q = "very_high")) := by
  refine ⟨score_route_scenario, by norm_num [categorize_risk], ?_, ?_⟩
  · intro coords pts ws buffer_m w hw
    by_cases hz : isZeroLength coords = true
    · rw [score_route, if_pos hz] at hw
      exact absurd hw (by simp)
    · have hzf : isZeroLength coords = false := by
        rwa [Bool.not_eq_true] at hz
      have hpos : (0 : ℝ) < line_length coords / 1000 :=
        div_pos (line_length_pos hzf) (by norm_num)
      rw [score_route, if_neg hz] at hw ⊢
      have hww : routeTotalWeight coords pts ws buffer_m = w := by
        simpa using hw
      show (if (0 : ℝ) < line_length coords / 1000 then
          ((routeTotalWeight coords pts ws buffer_m : ℚ) : ℝ)
            / (line_length coords / 1000) else 0)
        = ((w : ℚ) : ℝ) / (line_length coords / 1000)
      rw [if_pos hpos, hww]
  · intro q
    refine ⟨fun h => ?_, fun h1 h2 => ?_, fun h1 h2 => ?_, fun h1 => ?_⟩
    · rw [categorize_risk, if_pos h]
    · rw [categorize_risk, if_neg (not_lt.mpr h1), if_pos h2]
    · rw [categorize_risk, if_neg (not_lt.mpr (by linarith : (1 : ℚ) ≤ q)),
        if_neg (not_lt.mpr h1), if_pos h2]
    · rw [categorize_risk, if_neg (not_lt.mpr (by linarith : (1 : ℚ) ≤ q)),
        if_neg (not_lt.mpr (by linarith : (3 : ℚ) ≤ q)),
        if_neg (not_lt.mpr h1)]

/-- Witness for C5's conditional parts: the score/total-weight relation at
the scenario input, and the "medium" band at score 2. -/
theorem C5_witness :
    (score_route scenarioRoute scenarioPts scenarioWs 180).score
      = ((2 : ℚ) : ℝ)
        / (score_route scenarioRoute scenarioPts scenarioWs 180).length_km
    ∧ categorize_risk 2 = "medium" :=
  ⟨C5_scenario_and_score_semantics.2.2.1 scenarioRoute scenarioPts scenarioWs
      180 2 (by rw [score_route_scenario]),
   (C5_scenario_and_score_semantics.2.2.2 2).2.1 (by norm_num) (by norm_num)⟩

/-- C3: the claim says a degenerate route (fewer than 2 vertices or zero
planar length) yields the four-field zero sentinel and never raises.  The
code instead: (a) on a zero-length two-vertex route returns
`{'score': 0.0, 'incidents': 0, 'length_km': 0.0}` *without* the
`'total_weight'` key (`total_weight = none` in the model) — which its own
caller `analyze_routes` then reads unconditionally — and (b) raises
`ValueError` from `linestring_from_lonlat` for fewer than 2 vertices. -/
theorem C3_degenerate_route_divergence :
    (score_route [((0 : ℚ), 0), (0, 0)] [(0, 0)] [1] 180).total_weight = none
    ∧ (score_route [((0 : ℚ), 0), (0, 0)] [(0, 0)] [1] 180).score = 0
    ∧ (score_route [((0 : ℚ), 0), (0, 0)] [(0, 0)] [1] 180).incidents = 0
    ∧ (score_route [((0 : ℚ), 0), (0, 0)] [(0, 0)] [1] 180).length_km = 0
    ∧ linestring_from_lonlat (fun p => p) [((0 : ℚ), 0)]
        = Except.error "LineString requires at least 2 coordinates" := by
  have hz : isZeroLength [((0 : ℚ), 0), (0, 0)] = true := by
    rw [isZeroLength,
      show segments [((0 : ℚ), 0), (0, 0)] = [(((0 : ℚ), 0), ((0 : ℚ), 0))]
        from rfl,
      List.all_cons, List.all_nil,
      show dist2 ((0 : ℚ), 0) ((0 : ℚ), 0) = 0 from by norm_num [dist2]]
    simp
  have h : score_route [((0 : ℚ), 0), (0, 0)] [(0, 0)] [1] 180
      = { score := 0, incidents := 0, length_km := 0, total_weight := none } := by
    rw [score_route, if_pos hz]
  refine ⟨?_, ?_, ?_, ?_, rfl⟩ <;> rw [h]

/-- C1: the claim says `query_nearest` returns exactly the `k` nearest
indexed points.  On a two-point index with `count = 2` the code returns a
single row — the broad-phase `tree.nearest` yields one candidate and the
`count * 2` window is never expanded — while the `k` smallest-distance
entries of an unbounded radius query (`nearestSpec`) are both points. -/
theorem C1_nearest_window_misses_points :
    query_nearest [((0 : ℚ), 0), (3, 0)] (0, 0) 2 = [(0, 0)]
    ∧ nearestSpec [((0 : ℚ), 0), (3, 0)] (0, 0) 2 = [(0, 0), (1, 9)]
    ∧ query_nearest [((0 : ℚ), 0), (3, 0)] (0, 0) 2
        ≠ nearestSpec [((0 : ℚ), 0), (3, 0)] (0, 0) 2 := by
  have h1 : query_nearest [((0 : ℚ), 0), (3, 0)] (0, 0) 2 = [(0, 0)] := by
    norm_num [query_nearest, strtreeNearest, pairDist, dist2, sortPairs,
      show List.range 2 = [0, 1] from rfl, List.insertionSort]
  have h2 : nearestSpec [((0 : ℚ), 0), (3, 0)] (0, 0) 2 = [(0, 0), (1, 9)] := by
    norm_num [nearestSpec, allPairs, pairDist, dist2, sortPairs,
      show List.range 2 = [0, 1] from rfl, List.insertionSort,
      List.orderedInsert, distLE]
  refine ⟨h1, h2, ?_⟩
  rw [h1, h2]
  simp

/-! ### Concrete instantiation for the limit behaviour -/

theorem withinPairs_three :
    withinPairs [((0 : ℚ), 0), (1, 0), (2, 0)] (0, 0) 5 = [(0, 0), (1, 1), (2, 4)] := by
  norm_num [withinPairs, allPairs, pairDist, dist2,
    show List.range 3 = [0, 1, 2] from rfl]

/-- Witness for C10: three points within radius 5 but `limit = 2` — the
result keeps the 2 nearest and a within-radius row is dropped. -/
theorem C10_witness :
    (query_radius [((0 : ℚ), 0), (1, 0), (2, 0)] (0, 0) 5 2).length
      = min 2 (withinPairs [((0 : ℚ), 0), (1, 0), (2, 0)] (0, 0) 5).length
    ∧ (∃ e, e ∈ sortPairs (withinPairs [((0 : ℚ), 0), (1, 0), (2, 0)] (0, 0) 5)
        ∧ e ∉ query_radius [((0 : ℚ), 0), (1, 0), (2, 0)] (0, 0) 5 2) := by
  have h := (C10_radius_limit_truncation [((0 : ℚ), 0), (1, 0), (2, 0)] (0, 0)
    5 2).2.2 (by norm_num)
  exact ⟨h.1, h.2 (by rw [withinPairs_three]; norm_num)⟩

/-! ### Route comparison -/

theorem comparison_safest :
    minBy (fun x => x.score) routeA [routeB, routeC] = routeA := by
  norm_num [minBy, routeA, routeB, routeC]

theorem comparison_fastest :
    minBy (fun x => x.duration_seconds) routeA [routeB, routeC] = routeC := by
  norm_num [minBy, routeA, routeB, routeC]

theorem comparison_shortest :
    minBy (fun x => x.length_km) routeA [routeB, routeC] = routeA := by
  norm_num [minBy, routeA, routeB, routeC]

theorem comparison_rec_eval : get_recommendation routeA routeC routeA
    = "Take route 0 - low risk, worth the extra time" := by
  simp only [get_recommendation, routeA, routeC]
  rw [if_neg (by norm_num), if_pos (by norm_num)]
  rfl

/-- C7: the recommendation rules fire in source order — time penalty below
20 % recommends the safest route; otherwise a safest score below 2.0
recommends the safest route; otherwise a safest score above 5.0 recommends
the fastest with a caveat; otherwise both are presented.  On the §8 routes
(scores 0.5/2.5/6.0, durations 600/650/500 s) the time penalty is exactly
0.2, rule 1 fails, rule 2 fires, and the route with score 0.5 (id 0) is
recommended. -/
theorem C7_recommendation_rule_order :
    (∀ s f sh : RouteInfo,
      ((s.duration_seconds - f.duration_seconds) / f.duration_seconds < 2/10 →
        get_recommendation s f sh
          = "Take route " ++ toString s.route_id
            ++ " - safest option with minimal time penalty")
      ∧ (¬ (s.duration_seconds - f.duration_seconds) / f.duration_seconds < 2/10 →
          s.score < 2 →
          get_recommendation s f sh
            = "Take route " ++ toString s.route_id
              ++ " - low risk, worth the extra time")
      ∧ (¬ (s.duration_seconds - f.duration_seconds) / f.duration_seconds < 2/10 →
          ¬ s.score < 2 → s.score > 5 →
          get_recommendation s f sh
            = "Consider route " ++ toString f.route_id
              ++ " if time is critical, but be aware of higher crime risk")
      ∧ (¬ (s.duration_seconds - f.duration_seconds) / f.duration_seconds < 2/10 →
          ¬ s.score < 2 → ¬ s.score > 5 →
          get_recommendation s f sh
            = "Route " ++ toString s.route_id ++ " recommended for safety, route "
              ++ toString f.route_id ++ " for speed"))
    ∧ ((600 - 500 : ℚ) / 500 = 2/10)
    ∧ ¬ ((2 : ℚ)/10 < 2/10)
    ∧ compare_routes [routeA, routeB, routeC] = CompareResult.ok
        { total_routes := 3, safest_route_id := 0, fastest_route_id := 2,
          shortest_route_id := 0, risk_min := 1/2, risk_max := 6, risk_avg := 3,
          duration_min := 500, duration_max := 650, duration_avg := 1750/3,
          recommendation := "Take route 0 - low risk, worth the extra time" } := by
  refine ⟨?_, by norm_num, by norm_num, ?_⟩
  · intro s f sh
    refine ⟨fun h => ?_, fun h1 h2 => ?_, fun h1 h2 h3 => ?_,
      fun h1 h2 h3 => ?_⟩
    · simp only [get_recommendation]
      rw [if_pos h]
    · simp only [get_recommendation]
      rw [if_neg h1, if_pos h2]
    · simp only [get_recommendation]
      rw [if_neg h1, if_neg h2, if_pos h3]
    · simp only [get_recommendation]
      rw [if_neg h1, if_neg h2, if_neg h3]
  · rw [compare_routes, comparison_safest, comparison_fastest,
      comparison_shortest, comparison_rec_eval]
    norm_num [listMin, listMax, listAvg, Comparison.mk.injEq,
      routeA, routeB, routeC]

/-- Witness for C7's conditional rules: rule 2 fires on the scenario's
safest (score 0.5, id 0) and fastest (score 6.0, id 2) routes. -/
theorem C7_witness :
    get_recommendation routeA routeC routeA
      = "Take route " ++ toString routeA.route_id
        ++ " - low risk, worth the extra time" :=
  (C7_recommendation_rule_order.1 routeA routeC routeA).2.1
    (by norm_num [routeA, routeC]) (by norm_num [routeA])

/-- C8: `compare_routes` on the empty list returns the distinguished
`{'error': 'No routes to compare'}` value — a constructor the caller can
branch on, not a raised fault — and never that error value on a nonempty
list. -/
theorem C8_empty_comparison :
    compare_routes [] = CompareResult.err "No routes to compare"
    ∧ ∀ (r : RouteInfo) (rest : List RouteInfo),
        ∃ c : Comparison, compare_routes (r :: rest) = CompareResult.ok c :=
  ⟨rfl, fun _ _ => ⟨_, rfl⟩⟩

end RouteTO
